import Mathlib

/-!
Shallow embedding of puzza007/spot (src/main.rs): a minimal axum service
shell with a health endpoint, layered configuration, an OpenTelemetry
Datadog trace pipeline and graceful shutdown.

The embedding translates main.rs directly:
- the HTTP router model (Router.route / Router.layer) follows axum's
  semantics: a .layer call wraps only the routes added before it, and a
  later .layer call becomes the outermost wrapper;
- configuration loading (the config crate's builder with a file source and
  an environment source) is modelled from the spec, since the crate is an
  external collaborator whose code is not in this repository;
- the process lifecycle is modelled as an event trace produced by a
  straight-line translation of main() with early returns, parameterised by
  a World record providing the file system, environment and the outcomes
  of the fallible external calls.
-/

namespace Spot

/-! ## HTTP layer (src/main.rs lines 12-22) -/

/-- An HTTP response as produced by the handler: status, content type and
serialized body. -/
structure Response where
  status : Nat
  contentType : String
  body : String
deriving DecidableEq

/-- The response built by axum's Json wrapper: status 200, JSON content
type, and the serialized body. -/
def jsonResponse (body : String) : Response :=
  { status := 200, contentType := "application/json", body := body }

/-- The health handler (main.rs lines 12-14): Json of the serde_json value
with the single field status = UP; serde_json serializes it compactly. -/
def health : Response :=
  jsonResponse "\x7b\"status\":\"UP\"\x7d"

/-- The two middleware layers attached in app() (main.rs lines 19-20):
opentelemetry_tracing_layer() creates the trace context / span, and
TraceLayer::new_for_http() emits the access logs. -/
inductive Layer where
  | otelTracing
  | traceHttp
deriving DecidableEq

/-- One registered route: its path, its handler's response, and the
middleware layers wrapping it, listed outermost first. -/
structure Route where
  path : String
  handler : Response
  layers : List Layer
deriving DecidableEq

/-- The router: the list of registered routes in registration order. -/
structure Router where
  routes : List Route
deriving DecidableEq

/-- Router::new(). -/
def Router.new : Router := { routes := [] }

/-- Router::route(path, get(handler)): appends a route with no layers of
its own yet. -/
def Router.route (r : Router) (p : String) (h : Response) : Router :=
  { routes := r.routes ++ [{ path := p, handler := h, layers := [] }] }

/-- Router::layer(l): axum applies the layer to every route added so far
(routes added later are not wrapped), and a layer added later wraps the
earlier ones, so it is prepended as the new outermost layer. -/
def Router.layer (r : Router) (l : Layer) : Router :=
  { routes := r.routes.map (fun rt => { rt with layers := l :: rt.layers }) }

/-- app() from main.rs lines 16-22, in source order: route "/", then the
opentelemetry layer, then the HTTP trace layer, then route "/health". -/
def app : Router :=
  ((((Router.new.route "/" health).layer Layer.otelTracing).layer
      Layer.traceHttp).route "/health" health)

/-- Look a path up in the router (first matching route). -/
def routeLookup (r : Router) (p : String) : Option Route :=
  r.routes.find? (fun rt => rt.path == p)

/-- The response the router produces for a GET of the path, when the path
is registered. -/
def respond (r : Router) (p : String) : Option Response :=
  (routeLookup r p).map (fun rt => rt.handler)

/-- The middleware stack wrapping the route at the path, outermost first. -/
def routeLayers (r : Router) (p : String) : Option (List Layer) :=
  (routeLookup r p).map (fun rt => rt.layers)

/-! ## Configuration (main.rs lines 65-74)

The config crate itself is an external collaborator; its merge semantics
are modelled from the spec (section 4.1): read a named base source, fail
with ConfigError::MissingSource when it is absent, overlay environment
variables carrying the SPOT prefix, the prefix stripped and keys matched
case-insensitively (modelled by normalising every key to lower case), the
later source overwriting identical keys of the earlier one. -/

/-- A configuration value as the config crate holds it: a string, or
something that is not a plain string (a nested table, a number, ...),
which a flat String-to-String deserialization rejects. -/
inductive CVal where
  | str (s : String)
  | nonStr
deriving DecidableEq

/-- Modelled from the spec: the errors of the config load; the spec names
MissingSource for an absent base source. -/
inductive ConfigError where
  | MissingSource
deriving DecidableEq

/-- Set a key in an association list: overwrite in place when the key is
present, append otherwise. -/
def setKey (m : List (String × CVal)) (k : String) (v : CVal) :
    List (String × CVal) :=
  if m.any (fun kv => kv.1 == k) then
    m.map (fun kv => if kv.1 == k then (k, v) else kv)
  else m ++ [(k, v)]

/-- Look a key up in an association list (first binding). -/
def getKey (m : List (String × CVal)) (k : String) : Option CVal :=
  (m.find? (fun kv => kv.1 == k)).map (fun kv => kv.2)

/-- Modelled from the spec: merging a later source over an earlier one —
every binding of the later source overwrites the identically-keyed binding
of the earlier map, or is added. -/
def mergeOverride (m ov : List (String × CVal)) : List (String × CVal) :=
  ov.foldl (fun acc kv => setKey acc kv.1 kv.2) m

/-- Lower-casing of a key, character by character. -/
def lowerKey (s : String) : String := String.mk (s.data.map Char.toLower)

/-- Dropping the first n characters of a string. -/
def dropChars (n : Nat) (s : String) : String := String.mk (s.data.drop n)

/-- Whether the first string starts the second. -/
def startsWithStr (pfx s : String) : Bool := List.isPrefixOf pfx.data s.data

/-- Modelled from the spec: config::Environment::with_prefix collects the
environment variables whose names start with the prefix and a separator,
strips that lead and lower-cases the remainder so matching against base
keys is case-insensitive. -/
def envSource (pfx : String) (env : List (String × String)) :
    List (String × CVal) :=
  env.filterMap (fun kv =>
    if startsWithStr (pfx ++ "_") kv.1 then
      some ((lowerKey (dropChars (pfx.data.length + 1) kv.1), CVal.str kv.2))
    else none)

/-- Modelled from the spec: the file source's keys, lower-cased for
case-insensitive matching. -/
def fileSource (base : List (String × CVal)) : List (String × CVal) :=
  base.map (fun kv => (lowerKey kv.1, kv.2))

/-- Modelled from the spec: Config::builder().add_source(File::with_name
"spot").add_source(Environment::with_prefix "SPOT").build() — the whole
load fails with MissingSource when the base file is absent, and otherwise
produces the complete merged map, the environment source overriding the
file source. -/
def load (baseFile : Option (List (String × CVal)))
    (env : List (String × String)) :
    Except ConfigError (List (String × CVal)) :=
  match baseFile with
  | none => Except.error ConfigError.MissingSource
  | some base =>
      Except.ok (mergeOverride (fileSource base) (envSource "SPOT" env))

/-- settings.try_deserialize::<HashMap<String, String>>(): succeeds only
when every value is a plain string. -/
def tryDeserializeFlat : List (String × CVal) → Option (List (String × String))
  | [] => some []
  | kv :: rest =>
      match kv.2 with
      | CVal.str s => (tryDeserializeFlat rest).map (fun r => (kv.1, s) :: r)
      | CVal.nonStr => none

/-! ## The settings log line (main.rs lines 71-74)

tracing::info! formats the deserialized HashMap with Rust's Debug
formatter, which prints every entry as "key": "value" inside braces. -/

/-- Debug formatting of one map entry. -/
def formatEntry (kv : String × String) : String :=
  "\"" ++ kv.1 ++ "\": \"" ++ kv.2 ++ "\""

/-- Debug formatting of the entry list, comma-separated. -/
def formatEntries : List (String × String) → String
  | [] => ""
  | [kv] => formatEntry kv
  | kv :: rest => formatEntry kv ++ ", " ++ formatEntries rest

/-- The full info-level log line main.rs emits for the settings map. -/
def settingsLogLine (m : List (String × String)) : String :=
  "settings \x7b" ++ formatEntries m ++ "\x7d"

/-! ## The global exporter-error handler (main.rs lines 49-53) -/

/-- What a callback may do in the model: emit a log record, or abort the
process. -/
inductive HandlerAction where
  | log (msg : String)
  | abort (msg : String)
deriving DecidableEq

/-- The closure passed to opentelemetry::global::set_error_handler: it
only formats the error into a tracing::error! record; it never aborts. -/
def errorHandler (err : String) : HandlerAction :=
  HandlerAction.log ("OpenTelemetry error occurred: " ++ err)

/-! ## Process lifecycle (main() and shutdown_signal(), main.rs 24-93)

main() is straight-line code with early returns (the ? operator and the
expect calls); shutdown_signal() is an async fn whose body — including the
two expect calls that register the signal handlers — runs only when the
future is first polled, which happens inside the serve(...).await after
the listener is already bound.  The trace below records the externally
visible events in source order; the drain events after the shutdown
future completes follow axum's with_graceful_shutdown contract as the
spec describes it (stop accepting, then let in-flight requests finish). -/

/-- The observable events of one process run. -/
inductive Event where
  | setErrorHandler
  | installBatch
  | initSubscriber
  | configLoadFailed
  | deserializeFailed
  | logSettings (line : String)
  | vaultClientBuilt
  | vaultFailed
  | routerBuilt
  | warnListening (host : String) (port : Nat)
  | bindFailed
  | bound (host : String) (port : Nat)
  | serving
  | signalRegAbort
  | signalRegistered
  | signalReceived
  | warnShutdown
  | telemetryFlush
  | drainStart
  | drainComplete
deriving DecidableEq

/-- How the run ends: a zero exit, a non-zero exit (an error return from
main or a panic), or never (the server runs until a signal arrives). -/
inductive Outcome where
  | exitSuccess
  | exitFailure
  | stillRunning
deriving DecidableEq

/-- The run's environment: the base config file's content when present,
the process environment, and the outcomes of the fallible external calls
main() makes. -/
structure World where
  configFile : Option (List (String × CVal))
  envVars : List (String × String)
  pipelineOk : Bool
  vaultOk : Bool
  bindOk : Bool
  signalRegOk : Bool
  signalArrives : Bool

/-- The event trace and outcome of one run of main(), translated from
main.rs in source order with early returns. -/
def mainRun (w : World) : List Event × Outcome :=
  if w.pipelineOk then
    match load w.configFile w.envVars with
    | Except.error _ =>
        ([Event.setErrorHandler, Event.installBatch, Event.initSubscriber,
          Event.configLoadFailed], Outcome.exitFailure)
    | Except.ok settings =>
        match tryDeserializeFlat settings with
        | none =>
            ([Event.setErrorHandler, Event.installBatch,
              Event.initSubscriber, Event.deserializeFailed],
             Outcome.exitFailure)
        | some flat =>
            if w.vaultOk then
              if w.bindOk then
                if w.signalRegOk then
                  if w.signalArrives then
                    ([Event.setErrorHandler, Event.installBatch,
                      Event.initSubscriber,
                      Event.logSettings (settingsLogLine flat),
                      Event.vaultClientBuilt, Event.routerBuilt,
                      Event.warnListening "0.0.0.0" 3000,
                      Event.bound "0.0.0.0" 3000, Event.serving,
                      Event.signalRegistered, Event.signalReceived,
                      Event.warnShutdown, Event.telemetryFlush,
                      Event.drainStart, Event.drainComplete],
                     Outcome.exitSuccess)
                  else
                    ([Event.setErrorHandler, Event.installBatch,
                      Event.initSubscriber,
                      Event.logSettings (settingsLogLine flat),
                      Event.vaultClientBuilt, Event.routerBuilt,
                      Event.warnListening "0.0.0.0" 3000,
                      Event.bound "0.0.0.0" 3000, Event.serving,
                      Event.signalRegistered], Outcome.stillRunning)
                else
                  ([Event.setErrorHandler, Event.installBatch,
                    Event.initSubscriber,
                    Event.logSettings (settingsLogLine flat),
                    Event.vaultClientBuilt, Event.routerBuilt,
                    Event.warnListening "0.0.0.0" 3000,
                    Event.bound "0.0.0.0" 3000, Event.serving,
                    Event.signalRegAbort], Outcome.exitFailure)
              else
                ([Event.setErrorHandler, Event.installBatch,
                  Event.initSubscriber,
                  Event.logSettings (settingsLogLine flat),
                  Event.vaultClientBuilt, Event.routerBuilt,
                  Event.warnListening "0.0.0.0" 3000, Event.bindFailed],
                 Outcome.exitFailure)
            else
              ([Event.setErrorHandler, Event.installBatch,
                Event.initSubscriber,
                Event.logSettings (settingsLogLine flat),
                Event.vaultFailed], Outcome.exitFailure)
  else
    ([Event.setErrorHandler, Event.installBatch], Outcome.exitFailure)

/-- A fully healthy world: a valid base file setting PORT and a secret,
the SPOT_PORT override in the environment, every external call
succeeding, and a termination signal arriving after serving begins. -/
def wOk : World :=
  { configFile := some [("PORT", CVal.str "4000"),
                        ("secret_token", CVal.str "hunter2")],
    envVars := [("SPOT_PORT", "5000")],
    pipelineOk := true, vaultOk := true, bindOk := true,
    signalRegOk := true, signalArrives := true }

/-- wOk with signal-handler registration failing. -/
def wRegFail : World :=
  { wOk with signalRegOk := false }

/-- wOk with the base configuration file absent. -/
def wNoConfig : World :=
  { wOk with configFile := none }

/-- wOk with a nested (non-string) value in the base file. -/
def wNested : World :=
  { wOk with configFile := some [("PORT", CVal.str "4000"),
                                 ("nested", CVal.nonStr)] }

/-! ## Association-list lemmas for the configuration merge -/

theorem getKey_cons (kv : String × CVal) (m : List (String × CVal))
    (k : String) :
    getKey (kv :: m) k = if kv.1 == k then some kv.2 else getKey m k := by
  cases h : kv.1 == k <;> simp [getKey, List.find?_cons, h]

theorem getKey_append (m l : List (String × CVal)) (k : String) :
    getKey (m ++ l) k = (getKey m k).or (getKey l k) := by
  unfold getKey
  rw [List.find?_append]
  cases m.find? (fun kv => kv.1 == k) <;> simp

theorem getKey_map_replace (m : List (String × CVal)) (k : String) (v : CVal)
    (h : m.any (fun kv => kv.1 == k) = true) :
    getKey (m.map (fun kv => if kv.1 == k then (k, v) else kv)) k = some v := by
  induction m with
  | nil => simp at h
  | cons kv rest ih =>
      rw [List.any_cons] at h
      by_cases hk : kv.1 = k
      · simp [getKey_cons, hk]
      · have hb : (kv.1 == k) = false := beq_eq_false_iff_ne.mpr hk
        rw [hb, Bool.false_or] at h
        simpa [getKey_cons, hk] using ih h

theorem getKey_map_replace_ne (m : List (String × CVal)) (k k' : String)
    (v : CVal) (hne : k' ≠ k) :
    getKey (m.map (fun kv => if kv.1 == k then (k, v) else kv)) k' =
      getKey m k' := by
  induction m with
  | nil => rfl
  | cons kv rest ih =>
      by_cases hk : kv.1 = k
      · have hb1 : ¬ (k = k') := fun h => hne h.symm
        simpa [getKey_cons, hk, hb1] using ih
      · by_cases hk' : kv.1 = k'
        · simp [getKey_cons, hk, hk', hne]
        · simpa [getKey_cons, hk, hk'] using ih

theorem getKey_setKey_self (m : List (String × CVal)) (k : String)
    (v : CVal) : getKey (setKey m k v) k = some v := by
  unfold setKey
  cases hany : m.any (fun kv => kv.1 == k) with
  | true => simpa using getKey_map_replace m k v hany
  | false =>
      have hf : m.find? (fun kv => kv.1 == k) = none := by
        rw [List.find?_eq_none]
        intro x hx
        exact (List.any_eq_false.mp hany) x hx
      simp [getKey_append, getKey, hf, List.find?_cons]

theorem getKey_setKey_ne (m : List (String × CVal)) (k k' : String)
    (v : CVal) (hne : k' ≠ k) :
    getKey (setKey m k v) k' = getKey m k' := by
  unfold setKey
  cases hany : m.any (fun kv => kv.1 == k) with
  | true => simpa using getKey_map_replace_ne m k k' v hne
  | false =>
      have hb : ¬ (k = k') := fun h => hne h.symm
      have h1 : getKey [(k, v)] k' = none := by
        simp [getKey, List.find?_cons, hb]
      simp [getKey_append, h1]

theorem getKey_mergeOverride_not_mem (ov : List (String × CVal)) :
    ∀ (m : List (String × CVal)) (k : String),
      k ∉ ov.map Prod.fst → getKey (mergeOverride m ov) k = getKey m k := by
  induction ov with
  | nil => intro m k _; rfl
  | cons kv rest ih =>
      intro m k hk
      simp only [List.map_cons, List.mem_cons, not_or] at hk
      have h1 : getKey (mergeOverride (setKey m kv.1 kv.2) rest) k =
          getKey (setKey m kv.1 kv.2) k := ih _ k hk.2
      have h2 : getKey (setKey m kv.1 kv.2) k = getKey m k :=
        getKey_setKey_ne m kv.1 k kv.2 hk.1
      calc getKey (mergeOverride m (kv :: rest)) k
          = getKey (mergeOverride (setKey m kv.1 kv.2) rest) k := rfl
        _ = getKey m k := by rw [h1, h2]

theorem getKey_mergeOverride_of_mem (ov : List (String × CVal)) :
    ∀ (m : List (String × CVal)) (k : String) (v : CVal),
      (ov.map Prod.fst).Nodup → getKey ov k = some v →
      getKey (mergeOverride m ov) k = some v := by
  induction ov with
  | nil => intro m k v _ h; simp [getKey] at h
  | cons kv rest ih =>
      intro m k v hnd h
      simp only [List.map_cons, List.nodup_cons] at hnd
      by_cases hk : kv.1 = k
      · have hb : (kv.1 == k) = true := by simp [hk]
        rw [getKey_cons, if_pos hb] at h
        have hv : kv.2 = v := Option.some.inj h
        have hnot : k ∉ rest.map Prod.fst := by rw [← hk]; exact hnd.1
        calc getKey (mergeOverride m (kv :: rest)) k
            = getKey (mergeOverride (setKey m kv.1 kv.2) rest) k := rfl
          _ = getKey (setKey m kv.1 kv.2) k :=
              getKey_mergeOverride_not_mem rest _ k hnot
          _ = some kv.2 := by rw [hk]; exact getKey_setKey_self m k kv.2
          _ = some v := by rw [hv]
      · have hb : (kv.1 == k) = false := by simp [hk]
        rw [getKey_cons, if_neg (by simp [hb])] at h
        exact ih _ k v hnd.2 h

/-! ## Infix lemmas for the settings log line -/

theorem infix_append_left {l a b : List Char} (h : l <:+: b) :
    l <:+: a ++ b := by
  rcases h with ⟨s, t, hst⟩
  exact ⟨a ++ s, t, by rw [← hst]; simp [List.append_assoc]⟩

theorem infix_append_right {l a b : List Char} (h : l <:+: a) :
    l <:+: a ++ b := by
  rcases h with ⟨s, t, hst⟩
  exact ⟨s, t ++ b, by rw [← hst]; simp [List.append_assoc]⟩

theorem value_infix_formatEntry (k v : String) :
    v.data <:+: (formatEntry (k, v)).data := by
  refine ⟨("\"" ++ k ++ "\": \"" : String).data, ("\"" : String).data, ?_⟩
  simp [formatEntry, String.data_append, List.append_assoc]

theorem value_infix_formatEntries (m : List (String × String)) :
    ∀ (k v : String), (k, v) ∈ m → v.data <:+: (formatEntries m).data := by
  induction m with
  | nil => intro k v h; simp at h
  | cons kv rest ih =>
      intro k v h
      cases rest with
      | nil =>
          simp at h
          have : kv = (k, v) := by rw [h]
          rw [this]
          exact value_infix_formatEntry k v
      | cons kv2 rest2 =>
          rcases List.mem_cons.mp h with h1 | h2
          · have : kv = (k, v) := h1.symm
            rw [this]
            show v.data <:+:
              (formatEntry (k, v) ++ ", " ++ formatEntries (kv2 :: rest2)).data
            rw [String.data_append, String.data_append]
            exact infix_append_right (infix_append_right
              (value_infix_formatEntry k v))
          · show v.data <:+:
              (formatEntry kv ++ ", " ++ formatEntries (kv2 :: rest2)).data
            rw [String.data_append, String.data_append]
            exact infix_append_left (ih k v h2)

theorem value_infix_settingsLogLine (m : List (String × String))
    (k v : String) (h : (k, v) ∈ m) :
    v.data <:+: (settingsLogLine m).data := by
  show v.data <:+: ("settings \x7b" ++ formatEntries m ++ "\x7d").data
  rw [String.data_append, String.data_append]
  exact infix_append_right (infix_append_left
    (value_infix_formatEntries m k v h))

/-! ## Trace characterization helpers -/

/-- In any run whose trace contains the signal-received event, the trace is
the full successful run: every startup step, then the shutdown sequence in
which the telemetry flush (shutdown_tracer_provider, called inside
shutdown_signal) happens before the server stops accepting and drains. -/
theorem mainRun_signal_trace (w : World)
    (h : Event.signalReceived ∈ (mainRun w).1) :
    ∃ s, (mainRun w).1 =
      [Event.setErrorHandler, Event.installBatch, Event.initSubscriber,
       Event.logSettings s, Event.vaultClientBuilt, Event.routerBuilt,
       Event.warnListening "0.0.0.0" 3000, Event.bound "0.0.0.0" 3000,
       Event.serving, Event.signalRegistered, Event.signalReceived,
       Event.warnShutdown, Event.telemetryFlush, Event.drainStart,
       Event.drainComplete] := by
  by_cases hp : w.pipelineOk = true
  · cases hc : load w.configFile w.envVars with
    | error e => simp [mainRun, hp, hc] at h
    | ok settings =>
        cases hd : tryDeserializeFlat settings with
        | none => simp [mainRun, hp, hc, hd] at h
        | some flat =>
            by_cases hv : w.vaultOk = true
            · by_cases hb : w.bindOk = true
              · by_cases hs : w.signalRegOk = true
                · by_cases ha : w.signalArrives = true
                  · exact ⟨settingsLogLine flat, by
                      simp [mainRun, hp, hc, hd, hv, hb, hs, ha]⟩
                  · simp [mainRun, hp, hc, hd, hv, hb, hs, ha] at h
                · simp [mainRun, hp, hc, hd, hv, hb, hs] at h
              · simp [mainRun, hp, hc, hd, hv, hb] at h
            · simp [mainRun, hp, hc, hd, hv] at h
  · simp [mainRun, hp] at h

/-! ## Claims -/

/-- C1 counterexample: in the fully healthy run that reaches Serving and
receives a termination signal, the telemetry flush happens exactly once,
but the drain does NOT strictly precede it — the flush's position comes
before the drain's, because shutdown_signal calls
shutdown_tracer_provider before its future completes and the graceful
drain only starts after that completion. -/
theorem flush_before_drain_cex :
    Event.serving ∈ (mainRun wOk).1 ∧
    Event.signalReceived ∈ (mainRun wOk).1 ∧
    (mainRun wOk).1.count Event.telemetryFlush = 1 ∧
    ¬ ((mainRun wOk).1.indexOf Event.drainStart <
        (mainRun wOk).1.indexOf Event.telemetryFlush) := by decide

/-- C1 (amended): in every run that reaches Serving and receives a
termination signal, the telemetry flush is invoked exactly once, but it
happens strictly BEFORE the server stops accepting connections and drains
(the flush occurs inside the shutdown-signal future, whose completion is
what triggers the drain). -/
theorem telemetry_flush_once_before_drain (w : World)
    (_hserv : Event.serving ∈ (mainRun w).1)
    (hsig : Event.signalReceived ∈ (mainRun w).1) :
    ∃ pre post, (mainRun w).1 = pre ++ Event.telemetryFlush :: post ∧
      Event.telemetryFlush ∉ pre ∧ Event.telemetryFlush ∉ post ∧
      Event.drainStart ∈ post ∧ Event.drainStart ∉ pre := by
  obtain ⟨s, htr⟩ := mainRun_signal_trace w hsig
  refine ⟨[Event.setErrorHandler, Event.installBatch, Event.initSubscriber,
    Event.logSettings s, Event.vaultClientBuilt, Event.routerBuilt,
    Event.warnListening "0.0.0.0" 3000, Event.bound "0.0.0.0" 3000,
    Event.serving, Event.signalRegistered, Event.signalReceived,
    Event.warnShutdown], [Event.drainStart, Event.drainComplete],
    ?_, ?_, ?_, ?_, ?_⟩
  · rw [htr]; rfl
  · simp
  · simp
  · simp
  · simp

/-- C1 witness: the amended ordering at the concrete healthy world. -/
theorem telemetry_flush_once_before_drain_wit :
    ∃ pre post, (mainRun wOk).1 = pre ++ Event.telemetryFlush :: post ∧
      Event.telemetryFlush ∉ pre ∧ Event.telemetryFlush ∉ post ∧
      Event.drainStart ∈ post ∧ Event.drainStart ∉ pre :=
  telemetry_flush_once_before_drain wOk (by decide) (by decide)

/-- C2: GET / and GET /health both resolve to the health handler, which
returns status 200, JSON content type, and body exactly the status-UP
object; the handler is a pure constant (so independent of any prior
request or configuration) and the lookup never fails. -/
theorem health_routes_always_up :
    respond app "/" = some health ∧ respond app "/health" = some health ∧
    health.status = 200 ∧ health.contentType = "application/json" ∧
    health.body = "\x7b\"status\":\"UP\"\x7d" := by decide

/-- C3 counterexample: the /health route carries no middleware at all
(it is added after both .layer calls), and the / route's stack is not
trace-context-outermost. -/
theorem trace_layer_order_cex :
    routeLayers app "/health" = some [] ∧
    ¬ routeLayers app "/" = some [Layer.otelTracing, Layer.traceHttp] := by
  decide

/-- C3 (amended): only the / route is wrapped by the two observability
layers, and in the reverse of the claimed order — the access-logging
TraceLayer is outermost and the trace-context layer inside it; the
/health route, registered after the .layer calls, is wrapped by
neither. -/
theorem middleware_layers_actual :
    routeLayers app "/" = some [Layer.traceHttp, Layer.otelTracing] ∧
    routeLayers app "/health" = some [] := by decide

/-- C4: for a valid base-plus-override pair (the stripped override keys
distinct), the load succeeds with a complete resolved map in which every
key the environment source defines — in particular every key present in
both sources — resolves to the override's value. -/
theorem config_override_wins (base : List (String × CVal))
    (env : List (String × String)) (k : String) (v : String)
    (hnd : ((envSource "SPOT" env).map Prod.fst).Nodup)
    (hov : getKey (envSource "SPOT" env) k = some (CVal.str v))
    (_hbase : (fileSource base).any (fun kv => kv.1 == k) = true) :
    ∃ resolved, load (some base) env = Except.ok resolved ∧
      getKey resolved k = some (CVal.str v) := by
  refine ⟨mergeOverride (fileSource base) (envSource "SPOT" env), rfl, ?_⟩
  exact getKey_mergeOverride_of_mem (envSource "SPOT" env) (fileSource base)
    k (CVal.str v) hnd hov

/-- C4 witness: PORT=4000 in the base file, SPOT_PORT=5000 in the
environment; the resolved port is 5000. -/
theorem config_override_wins_wit :
    (((envSource "SPOT" [("SPOT_PORT", "5000")]).map Prod.fst).Nodup ∧
      getKey (envSource "SPOT" [("SPOT_PORT", "5000")]) "port" =
        some (CVal.str "5000") ∧
      (fileSource [("PORT", CVal.str "4000")]).any
        (fun kv => kv.1 == "port") = true) ∧
    ∃ resolved,
      load (some [("PORT", CVal.str "4000")]) [("SPOT_PORT", "5000")] =
        Except.ok resolved ∧
      getKey resolved "port" = some (CVal.str "5000") :=
  ⟨⟨by decide, by decide, by decide⟩,
    config_override_wins [("PORT", CVal.str "4000")] [("SPOT_PORT", "5000")]
      "port" "5000" (by decide) (by decide) (by decide)⟩

/-- C5: with the base configuration source absent the load fails as a
whole with ConfigError.MissingSource, and the run never serves and never
exits successfully. -/
theorem missing_source_fatal (w : World) (h : w.configFile = none) :
    load w.configFile w.envVars = Except.error ConfigError.MissingSource ∧
    Event.serving ∉ (mainRun w).1 ∧ (mainRun w).2 ≠ Outcome.exitSuccess := by
  refine ⟨by rw [h]; rfl, ?_, ?_⟩
  · by_cases hp : w.pipelineOk = true
    · simp [mainRun, hp, h, load]
    · simp [mainRun, hp]
  · by_cases hp : w.pipelineOk = true
    · simp [mainRun, hp, h, load]
    · simp [mainRun, hp]

/-- C5 witness: the concrete world with no config file. -/
theorem missing_source_fatal_wit :
    load wNoConfig.configFile wNoConfig.envVars =
      Except.error ConfigError.MissingSource ∧
    Event.serving ∉ (mainRun wNoConfig).1 ∧
    (mainRun wNoConfig).2 ≠ Outcome.exitSuccess :=
  missing_source_fatal wNoConfig rfl

/-- C6 counterexample: with PORT=4000 in the base file and SPOT_PORT=5000
in the environment, the run still binds 0.0.0.0:3000 and never binds port
5000 — the address is hard-coded and the configuration is ignored. -/
theorem port_override_ignored_cex :
    Event.serving ∈ (mainRun wOk).1 ∧
    Event.bound "0.0.0.0" 5000 ∉ (mainRun wOk).1 ∧
    Event.bound "0.0.0.0" 3000 ∈ (mainRun wOk).1 := by decide

/-- C6 (amended): the listening address is fixed at all interfaces port
3000 and is NOT overridable — every bind in every run is to
0.0.0.0:3000 regardless of the configuration or environment. -/
theorem bound_address_fixed (w : World) (host : String) (p : Nat)
    (h : Event.bound host p ∈ (mainRun w).1) :
    host = "0.0.0.0" ∧ p = 3000 := by
  by_cases hp : w.pipelineOk = true
  · cases hc : load w.configFile w.envVars with
    | error e => simp [mainRun, hp, hc] at h
    | ok settings =>
        cases hd : tryDeserializeFlat settings with
        | none => simp [mainRun, hp, hc, hd] at h
        | some flat =>
            by_cases hv : w.vaultOk = true
            · by_cases hb : w.bindOk = true
              · by_cases hs : w.signalRegOk = true
                · by_cases ha : w.signalArrives = true
                  · simp [mainRun, hp, hc, hd, hv, hb, hs, ha] at h
                    exact h
                  · simp [mainRun, hp, hc, hd, hv, hb, hs, ha] at h
                    exact h
                · simp [mainRun, hp, hc, hd, hv, hb, hs] at h
                  exact h
              · simp [mainRun, hp, hc, hd, hv, hb] at h
            · simp [mainRun, hp, hc, hd, hv] at h
  · simp [mainRun, hp] at h

/-- C6 witness: the amended statement applied to the healthy world's one
bind event. -/
theorem bound_address_fixed_wit : "0.0.0.0" = "0.0.0.0" ∧ 3000 = 3000 :=
  bound_address_fixed wOk "0.0.0.0" 3000 (by decide)

/-- C7 counterexample: a run in which signal-handler registration fails
still reaches the Serving state — the handlers are registered lazily,
when the shutdown future is first polled inside serve().await, after the
listener is bound. -/
theorem serving_despite_reg_failure_cex :
    wRegFail.signalRegOk = false ∧
    Event.serving ∈ (mainRun wRegFail).1 ∧
    Event.signalRegAbort ∈ (mainRun wRegFail).1 := by decide

/-- C7 (amended): signal-registration failure is fatal — the run panics
and never exits successfully, and the telemetry is never flushed — but it
aborts only AFTER the server has bound and begun serving, not before. -/
theorem signal_reg_failure_fatal_after_serving (w : World)
    (hreg : w.signalRegOk = false)
    (hserv : Event.serving ∈ (mainRun w).1) :
    (mainRun w).2 = Outcome.exitFailure ∧
    ∃ pre post, (mainRun w).1 = pre ++ Event.serving :: post ∧
      Event.signalRegAbort ∈ post ∧
      Event.telemetryFlush ∉ (mainRun w).1 := by
  by_cases hp : w.pipelineOk = true
  · cases hc : load w.configFile w.envVars with
    | error e => simp [mainRun, hp, hc] at hserv
    | ok settings =>
        cases hd : tryDeserializeFlat settings with
        | none => simp [mainRun, hp, hc, hd] at hserv
        | some flat =>
            by_cases hv : w.vaultOk = true
            · by_cases hb : w.bindOk = true
              · refine ⟨by simp [mainRun, hp, hc, hd, hv, hb, hreg],
                  [Event.setErrorHandler, Event.installBatch,
                   Event.initSubscriber,
                   Event.logSettings (settingsLogLine flat),
                   Event.vaultClientBuilt, Event.routerBuilt,
                   Event.warnListening "0.0.0.0" 3000,
                   Event.bound "0.0.0.0" 3000], [Event.signalRegAbort],
                  by simp [mainRun, hp, hc, hd, hv, hb, hreg],
                  by simp,
                  by simp [mainRun, hp, hc, hd, hv, hb, hreg]⟩
              · simp [mainRun, hp, hc, hd, hv, hb] at hserv
            · simp [mainRun, hp, hc, hd, hv] at hserv
  · simp [mainRun, hp] at hserv

/-- C7 witness: the amended statement at the concrete
registration-failure world. -/
theorem signal_reg_failure_fatal_after_serving_wit :
    (mainRun wRegFail).2 = Outcome.exitFailure ∧
    ∃ pre post, (mainRun wRegFail).1 = pre ++ Event.serving :: post ∧
      Event.signalRegAbort ∈ post ∧
      Event.telemetryFlush ∉ (mainRun wRegFail).1 :=
  signal_reg_failure_fatal_after_serving wRegFail rfl (by decide)

/-- C8: in every run the global exporter-error handler is registered
first, before the batched pipeline is constructed (they are the first
two events, and neither recurs), and the handler itself only produces a
log record — it is a total function into the log action, never an
abort. -/
theorem error_handler_first_and_logs_only (w : World) :
    (∃ rest, (mainRun w).1 =
        Event.setErrorHandler :: Event.installBatch :: rest ∧
      Event.setErrorHandler ∉ rest ∧ Event.installBatch ∉ rest) ∧
    ∀ err, errorHandler err =
      HandlerAction.log ("OpenTelemetry error occurred: " ++ err) := by
  refine ⟨?_, fun err => rfl⟩
  by_cases hp : w.pipelineOk = true
  · cases hc : load w.configFile w.envVars with
    | error e =>
        exact ⟨[Event.initSubscriber, Event.configLoadFailed],
          by simp [mainRun, hp, hc], by simp, by simp⟩
    | ok settings =>
        cases hd : tryDeserializeFlat settings with
        | none =>
            exact ⟨[Event.initSubscriber, Event.deserializeFailed],
              by simp [mainRun, hp, hc, hd], by simp, by simp⟩
        | some flat =>
            by_cases hv : w.vaultOk = true
            · by_cases hb : w.bindOk = true
              · by_cases hs : w.signalRegOk = true
                · by_cases ha : w.signalArrives = true
                  · exact ⟨[Event.initSubscriber,
                      Event.logSettings (settingsLogLine flat),
                      Event.vaultClientBuilt, Event.routerBuilt,
                      Event.warnListening "0.0.0.0" 3000,
                      Event.bound "0.0.0.0" 3000, Event.serving,
                      Event.signalRegistered, Event.signalReceived,
                      Event.warnShutdown, Event.telemetryFlush,
                      Event.drainStart, Event.drainComplete],
                      by simp [mainRun, hp, hc, hd, hv, hb, hs, ha],
                      by simp, by simp⟩
                  · exact ⟨[Event.initSubscriber,
                      Event.logSettings (settingsLogLine flat),
                      Event.vaultClientBuilt, Event.routerBuilt,
                      Event.warnListening "0.0.0.0" 3000,
                      Event.bound "0.0.0.0" 3000, Event.serving,
                      Event.signalRegistered],
                      by simp [mainRun, hp, hc, hd, hv, hb, hs, ha],
                      by simp, by simp⟩
                · exact ⟨[Event.initSubscriber,
                    Event.logSettings (settingsLogLine flat),
                    Event.vaultClientBuilt, Event.routerBuilt,
                    Event.warnListening "0.0.0.0" 3000,
                    Event.bound "0.0.0.0" 3000, Event.serving,
                    Event.signalRegAbort],
                    by simp [mainRun, hp, hc, hd, hv, hb, hs],
                    by simp, by simp⟩
              · exact ⟨[Event.initSubscriber,
                  Event.logSettings (settingsLogLine flat),
                  Event.vaultClientBuilt, Event.routerBuilt,
                  Event.warnListening "0.0.0.0" 3000, Event.bindFailed],
                  by simp [mainRun, hp, hc, hd, hv, hb],
                  by simp, by simp⟩
            · exact ⟨[Event.initSubscriber,
                Event.logSettings (settingsLogLine flat),
                Event.vaultFailed],
                by simp [mainRun, hp, hc, hd, hv],
                by simp, by simp⟩
  · exact ⟨[], by simp [mainRun, hp], by simp, by simp⟩

/-- C9 counterexample: in the healthy run whose base file holds the
secret-named key secret_token with value hunter2, the emitted info-level
settings line contains the secret's cleartext value as a substring. -/
theorem secret_value_logged_cex :
    Event.logSettings
        "settings \x7b\"port\": \"5000\", \"secret_token\": \"hunter2\"\x7d" ∈
      (mainRun wOk).1 ∧
    ("hunter2" : String).data <:+:
      ("settings \x7b\"port\": \"5000\", \"secret_token\": \"hunter2\"\x7d" :
        String).data := by decide

/-- C9 (amended): after a successful load and flat deserialization the
resolved configuration is logged at info level, but verbatim — the log
line contains every entry's value in cleartext, secret-bearing keys
included, not just the keys. -/
theorem settings_values_logged_cleartext (w : World)
    (settings : List (String × CVal)) (flat : List (String × String))
    (hp : w.pipelineOk = true)
    (hl : load w.configFile w.envVars = Except.ok settings)
    (hd : tryDeserializeFlat settings = some flat) :
    Event.logSettings (settingsLogLine flat) ∈ (mainRun w).1 ∧
    ∀ k v, (k, v) ∈ flat → v.data <:+: (settingsLogLine flat).data := by
  constructor
  · by_cases hv : w.vaultOk = true
    · by_cases hb : w.bindOk = true
      · by_cases hs : w.signalRegOk = true
        · by_cases ha : w.signalArrives = true
          · simp [mainRun, hp, hl, hd, hv, hb, hs, ha]
          · simp [mainRun, hp, hl, hd, hv, hb, hs, ha]
        · simp [mainRun, hp, hl, hd, hv, hb, hs]
      · simp [mainRun, hp, hl, hd, hv, hb]
    · simp [mainRun, hp, hl, hd, hv]
  · intro k v hkv
    exact value_infix_settingsLogLine flat k v hkv

/-- C9 witness: the amended statement at the healthy world carrying the
secret_token entry. -/
theorem settings_values_logged_cleartext_wit :
    (wOk.pipelineOk = true ∧
      load wOk.configFile wOk.envVars = Except.ok
        [("port", CVal.str "5000"), ("secret_token", CVal.str "hunter2")] ∧
      tryDeserializeFlat
        [("port", CVal.str "5000"), ("secret_token", CVal.str "hunter2")] =
        some [("port", "5000"), ("secret_token", "hunter2")]) ∧
    Event.logSettings
        (settingsLogLine [("port", "5000"), ("secret_token", "hunter2")]) ∈
      (mainRun wOk).1 ∧
    ∀ k v, (k, v) ∈ [("port", "5000"), ("secret_token", "hunter2")] →
      v.data <:+:
        (settingsLogLine [("port", "5000"), ("secret_token", "hunter2")]).data :=
  ⟨⟨rfl, rfl, by decide⟩,
    settings_values_logged_cleartext wOk
      [("port", CVal.str "5000"), ("secret_token", CVal.str "hunter2")]
      [("port", "5000"), ("secret_token", "hunter2")]
      rfl rfl (by decide)⟩

/-- C10: when the merge succeeds but the resolved configuration does not
deserialize as a flat string-to-string map, the run fails with a non-zero
exit at the logging step: the deserialize failure is recorded, nothing is
logged, and neither the router build nor any bind ever happens. -/
theorem nonstring_config_aborts_before_router (w : World)
    (settings : List (String × CVal))
    (hp : w.pipelineOk = true)
    (hl : load w.configFile w.envVars = Except.ok settings)
    (hd : tryDeserializeFlat settings = none) :
    (mainRun w).2 = Outcome.exitFailure ∧
    Event.deserializeFailed ∈ (mainRun w).1 ∧
    Event.routerBuilt ∉ (mainRun w).1 ∧
    (∀ host p, Event.bound host p ∉ (mainRun w).1) ∧
    (∀ s, Event.logSettings s ∉ (mainRun w).1) := by
  refine ⟨?_, ?_, ?_, ?_, ?_⟩ <;> simp [mainRun, hp, hl, hd]

/-- C10 witness: the statement at the world whose base file carries a
non-string (nested) value. -/
theorem nonstring_config_aborts_before_router_wit :
    (wNested.pipelineOk = true ∧
      load wNested.configFile wNested.envVars = Except.ok
        [("port", CVal.str "5000"), ("nested", CVal.nonStr)] ∧
      tryDeserializeFlat
        [("port", CVal.str "5000"), ("nested", CVal.nonStr)] = none) ∧
    (mainRun wNested).2 = Outcome.exitFailure ∧
    Event.deserializeFailed ∈ (mainRun wNested).1 ∧
    Event.routerBuilt ∉ (mainRun wNested).1 ∧
    (∀ host p, Event.bound host p ∉ (mainRun wNested).1) ∧
    (∀ s, Event.logSettings s ∉ (mainRun wNested).1) :=
  ⟨⟨rfl, rfl, by decide⟩,
    nonstring_config_aborts_before_router wNested
      [("port", CVal.str "5000"), ("nested", CVal.nonStr)]
      rfl rfl (by decide)⟩

end Spot
